import Mathlib

/-!
# post-sync: verification of the synchronization decision engine

Shallow embedding of the post-sync CLI tool (Markdown → WeChat draft
synchronizer).  The embedding follows the TypeScript sources:

* `src/services/db.service.ts` — the SQLite-backed sync record store,
  modelled as a `Db` structure holding the four relations (`articles`,
  `drafts`, `publications`, `materials`) as lists of rows, with the
  service methods as pure functions on `Db`.  ISO-8601 timestamps are
  modelled by a monotone `clock : Nat`; only the relative order of
  `created_at` values is ever observed by the code (the
  `ORDER BY created_at DESC LIMIT 1` in `findLatestDraftByArticleId`).
* `src/index.ts` (the `create` command action, lines 67–163) — the
  per-document synchronization decision and its local/remote side
  effects, modelled by `decideCreateAction` / `processCreateDoc` /
  `runCreateBatch`.  Results of awaited external calls (file hashing,
  `wechatService.getDraft`, `markdownService.convert`,
  `wechatService.createDraft`) enter as explicit parameters.
* `src/services/markdown.service.ts` — the asset-resolution paths of
  `MarkdownService.convert`: cover handling (lines 278–314) as
  `resolveCover`, inline body-image handling (lines 347–412) as
  `resolveBodyImage`, and the digest resolution (lines 430–444) as
  `resolveDigest`.
* `src/services/wechat.service.ts` — the outcome classification of
  `WeChatService.checkMediaExists` (lines 306–345) as
  `checkMediaExists`.

The SHA-1 function from `crypto` is modelled by an explicit parameter
`hashFn : String → String`; the program only ever compares digests for
equality, so every theorem below is stated for an arbitrary `hashFn`
(or a concrete stand-in in closed evaluations).
-/

namespace PostSync

/-- JavaScript string truthiness for nullable string fields:
`null`/`undefined` and the empty string are falsy. -/
def jsTruthy : Option String → Bool
  | some s => s ≠ ""
  | none => false

/-- JavaScript `a || b` on nullable strings (used by the digest/author
resolution chains in `MarkdownService.convert`). -/
def jsOrStr (a b : Option String) : Option String :=
  if jsTruthy a then a else b

/-! ## Sync record store (`db.service.ts`) -/

/-- A row of the `articles` table: a Document record.  `created_at` /
`updated_at` are omitted: nothing in the program reads them. -/
structure ArticleRow where
  id : Nat
  source_path : String
  source_hash : String
  deriving Repr, DecidableEq

/-- A row of the `drafts` table: a Draft Reference.  `created_at` is the
store's logical clock at insertion time (only its order is observed). -/
structure DraftRow where
  id : Nat
  article_id : Nat
  media_id : String
  created_at : Nat
  deriving Repr, DecidableEq

/-- A row of the `publications` table (fields the program writes). -/
structure PublicationRow where
  id : Nat
  draft_id : Nat
  publish_id : String
  deriving Repr, DecidableEq

/-- A row of the `materials` table: an Asset Cache Entry.  `url` is a
nullable column (`url TEXT`), hence `Option String`. -/
structure MaterialRow where
  local_path : String
  hash : String
  media_id : String
  url : Option String
  deriving Repr, DecidableEq

/-- The whole store.  `nextArticleId` / `nextDraftId` /
`nextPublicationId` model `AUTOINCREMENT`; `clock` models the passage of
time between inserts (strictly increasing `created_at`). -/
structure Db where
  articles : List ArticleRow
  drafts : List DraftRow
  publications : List PublicationRow
  materials : List MaterialRow
  nextArticleId : Nat
  nextDraftId : Nat
  nextPublicationId : Nat
  clock : Nat
  deriving Repr, DecidableEq

/-- `DbService.findArticleByPath`: `SELECT … WHERE source_path = ?`
(`source_path` is `UNIQUE`, so the first match is the row). -/
def findArticleByPath (db : Db) (sourcePath : String) : Option ArticleRow :=
  db.articles.find? (fun a => a.source_path == sourcePath)

/-- `DbService.insertArticle`: `INSERT INTO articles …`; returns the new
store and `lastInsertRowid`. -/
def insertArticle (db : Db) (sourcePath hash : String) : Db × Nat :=
  let id := db.nextArticleId
  ({ db with
      articles := db.articles ++ [⟨id, sourcePath, hash⟩]
      nextArticleId := id + 1
      clock := db.clock + 1 }, id)

/-- `DbService.updateArticleHash`: `UPDATE articles SET source_hash = ?
WHERE id = ?`. -/
def updateArticleHash (db : Db) (id : Nat) (hash : String) : Db :=
  { db with
      articles := db.articles.map
        (fun a => if a.id == id then { a with source_hash := hash } else a) }

/-- `DbService.insertDraft`: `INSERT INTO drafts …`; returns the new
store and `lastInsertRowid`. -/
def insertDraft (db : Db) (articleId : Nat) (mediaId : String) : Db × Nat :=
  let id := db.nextDraftId
  ({ db with
      drafts := db.drafts ++ [⟨id, articleId, mediaId, db.clock⟩]
      nextDraftId := id + 1
      clock := db.clock + 1 }, id)

/-- `DbService.findLatestDraftByArticleId`: `SELECT … WHERE article_id =
? ORDER BY created_at DESC LIMIT 1`.  Rows carry strictly increasing
`created_at` stamps in this model, so the maximum is the latest. -/
def findLatestDraftByArticleId (db : Db) (articleId : Nat) : Option DraftRow :=
  (db.drafts.filter (fun d => d.article_id == articleId)).foldl
    (fun acc d =>
      match acc with
      | none => some d
      | some best => some (if best.created_at < d.created_at then d else best))
    none

/-- `DbService.insertPublication`: `INSERT INTO publications …`. -/
def insertPublication (db : Db) (draftId : Nat) (publishId : String) : Db × Nat :=
  let id := db.nextPublicationId
  ({ db with
      publications := db.publications ++ [⟨id, draftId, publishId⟩]
      nextPublicationId := id + 1
      clock := db.clock + 1 }, id)

/-- `DbService.getMaterial`: `SELECT … FROM materials WHERE local_path = ?`. -/
def getMaterial (db : Db) (localPath : String) : Option MaterialRow :=
  db.materials.find? (fun m => m.local_path == localPath)

/-- `DbService.saveMaterial`: `INSERT … ON CONFLICT(local_path) DO
UPDATE SET hash, media_id, url` (upsert keyed by `local_path`). -/
def saveMaterial (db : Db) (localPath hash mediaId url : String) : Db :=
  if db.materials.any (fun m => m.local_path == localPath) then
    { db with
        materials := db.materials.map
          (fun m =>
            if m.local_path == localPath then
              { m with hash := hash, media_id := mediaId, url := some url }
            else m) }
  else
    { db with materials := db.materials ++ [⟨localPath, hash, mediaId, some url⟩] }

/-- `getFileHash` (`file.util.ts` lines 25–33): the SHA-1 hex digest of
the file's raw bytes.  The digest function is the parameter `hashFn`;
the essential mirrored fact is that the result depends only on the raw
content of the file. -/
def getFileHash (hashFn : String → String) (rawContent : String) : String :=
  hashFn rawContent

/-! ## Synchronization decision engine (`index.ts`, `create` command) -/

/-- The per-document sync action (`let action : 'SKIP' | 'CREATE' |
'UPDATE'` in `index.ts`). -/
inductive SyncAction where
  | SKIP
  | CREATE
  | UPDATE
  deriving Repr, DecidableEq

/-- Outcome of `await wechatService.getDraft(draftEntry.media_id)` as
observed by the `create` command (lines 75–80): the call resolves to a
truthy draft object (`found`), resolves to `null` — the errcode-40007
path inside `WeChatService.getDraft` — (`missing`), or throws
(`errored`, caught at the call site and logged, leaving `draftOnServer`
at its initial `null`). -/
inductive GetDraftOutcome where
  | found
  | missing
  | errored
  deriving Repr, DecidableEq

/-- The action decision of the `create` command (`index.ts` lines
72–98): `action` starts as `CREATE`; when a latest draft row exists the
remote draft is fetched; a missing-or-unfetchable remote draft forces
`CREATE`; a live remote draft yields `SKIP` when
`articleEntry && articleEntry.source_hash === hash`, else `UPDATE`. -/
def decideCreateAction (hash : String) (articleEntry : Option ArticleRow)
    (draftEntry : Option DraftRow) (remote : GetDraftOutcome) : SyncAction :=
  match draftEntry with
  | none => SyncAction.CREATE
  | some _ =>
    match remote with
    | GetDraftOutcome.found =>
      match articleEntry with
      | some a => if a.source_hash == hash then SyncAction.SKIP else SyncAction.UPDATE
      | none => SyncAction.UPDATE
    | GetDraftOutcome.missing => SyncAction.CREATE
    | GetDraftOutcome.errored => SyncAction.CREATE

/-- The composed decision for one document: the `create` command looks
up the article row by path, then the latest draft row for that article
(`index.ts` lines 69–70), and decides as above on the freshly computed
raw-file hash. -/
def createDecision (hashFn : String → String) (db : Db) (file rawContent : String)
    (remote : GetDraftOutcome) : SyncAction :=
  let hash := getFileHash hashFn rawContent
  let articleEntry := findArticleByPath db file
  let draftEntry := articleEntry.bind (fun a => findLatestDraftByArticleId db a.id)
  decideCreateAction hash articleEntry draftEntry remote

/-- The value returned by `markdownService.convert` (`index.ts` line
109): rendered HTML, the thumbnail media id (nullable), and the
resolved digest/author (possibly `undefined`). -/
structure ConvertResult where
  html : String
  thumb_media_id : Option String
  digest : Option String
  author : Option String
  deriving Repr, DecidableEq

/-- One `dbService.saveMaterial` call performed inside
`MarkdownService.convert` (cover upload at line 310, body-image upload
at line 398): the only store mutations the conversion performs. -/
structure SaveCall where
  local_path : String
  hash : String
  media_id : String
  url : String
  deriving Repr, DecidableEq

/-- Replay the store mutations performed inside a conversion. -/
def applySaves (db : Db) (saves : List SaveCall) : Db :=
  saves.foldl (fun d s => saveMaterial d s.local_path s.hash s.media_id s.url) db

/-- Outcome of `await markdownService.convert(…)`: either it returns a
`ConvertResult` after performing the recorded `saveMaterial` calls, or
it throws (a fatal inline body-asset failure), having already performed
the `saveMaterial` calls of the assets resolved before the failure. -/
inductive ConvertOutcome where
  | ok (res : ConvertResult) (saves : List SaveCall)
  | errored (saves : List SaveCall)
  deriving Repr, DecidableEq

/-- The remote WeChat calls issued by the `create` command loop body. -/
inductive RemoteCall where
  | getDraftCall (mediaId : String)
  | createDraftCall (title : String)
  | updateDraftCall (mediaId : String)
  deriving Repr, DecidableEq

/-- Exogenous inputs for processing one document in the `create`
command: the file's raw markdown bytes, the remote draft-check outcome,
the conversion outcome, and the `media_id` the remote `createDraft`
call would return. -/
structure DocRun where
  rawContent : String
  remote : GetDraftOutcome
  conv : ConvertOutcome
  newMediaId : String
  deriving Repr, DecidableEq

/-- Result of processing one document: the decided action, the store
after all local side effects, and the remote calls issued. -/
structure DocResult where
  action : SyncAction
  db : Db
  calls : List RemoteCall
  deriving Repr, DecidableEq

/-- The `create` command loop body (`index.ts` lines 67–156) for one
document `file`.  In order: compute `hash = getFileHash(file)`, look up
the article and latest draft rows, fetch the remote draft when a draft
row exists, decide the action; on `SKIP`, `continue` with no further
effect; otherwise run `markdownService.convert` (whose thrown errors
propagate out of the loop — `Except.error`), bail out (`continue`) when
no thumbnail was produced, and finally perform the remote
create/update call and the transactional store writes.  The `title`
passed to the remote calls is `path.basename(file, '.md')`, modelled
here as `file` itself (basename computation is presentation only). -/
def processCreateDoc (hashFn : String → String) (db : Db) (file : String)
    (r : DocRun) : Except Db DocResult :=
  let hash := getFileHash hashFn r.rawContent
  let articleEntry := findArticleByPath db file
  let draftEntry := articleEntry.bind (fun a => findLatestDraftByArticleId db a.id)
  let calls₀ : List RemoteCall :=
    match draftEntry with
    | some d => [RemoteCall.getDraftCall d.media_id]
    | none => []
  let action := decideCreateAction hash articleEntry draftEntry r.remote
  if action == SyncAction.SKIP then
    Except.ok ⟨SyncAction.SKIP, db, calls₀⟩
  else
    match r.conv with
    | ConvertOutcome.errored saves => Except.error (applySaves db saves)
    | ConvertOutcome.ok res saves =>
      let db₁ := applySaves db saves
      if ¬ jsTruthy res.thumb_media_id then
        -- `if (!thumb_media_id) { logger.error(…); continue; }`
        Except.ok ⟨action, db₁, calls₀⟩
      else
        match action, draftEntry with
        | SyncAction.UPDATE, some d =>
          let db₂ :=
            match articleEntry with
            | some a => updateArticleHash db₁ a.id hash
            | none => db₁
          Except.ok ⟨SyncAction.UPDATE, db₂, calls₀ ++ [RemoteCall.updateDraftCall d.media_id]⟩
        | _, _ =>
          -- the CREATE branch (`else` of `action === 'UPDATE' && draftEntry`)
          let db₂ :=
            match articleEntry with
            | some a => (insertDraft (updateArticleHash db₁ a.id hash) a.id r.newMediaId).1
            | none =>
              let ins := insertArticle db₁ file hash
              (insertDraft ins.1 ins.2 r.newMediaId).1
          Except.ok ⟨action, db₂, calls₀ ++ [RemoteCall.createDraftCall file]⟩

/-- The `create` command batch loop (`index.ts` lines 45–163): documents
are processed in order inside a single `try` block whose `catch` sits
outside the `for` loop, so the first thrown per-document error ends the
loop.  Returns the final store and the `(file, action)` pairs of the
documents that were actually processed. -/
def runCreateBatch (hashFn : String → String) (runs : String → DocRun) :
    Db → List String → Db × List (String × SyncAction)
  | db, [] => (db, [])
  | db, file :: rest =>
    match processCreateDoc hashFn db file (runs file) with
    | Except.error dbErr => (dbErr, [])
    | Except.ok res =>
      let next := runCreateBatch hashFn runs res.db rest
      (next.1, (file, res.action) :: next.2)

/-! ## Asset resolution (`markdown.service.ts`, `MarkdownService.convert`) -/

/-- Result of `getImageBuffer` (lines 38–81): the fetched bytes with
their detected content type and basename, or a throw — a missing /
unreadable file, a failed download, or an unsupported format
(`FileError`, line 74). -/
inductive FetchOutcome where
  | ok (bytes contentType filename : String)
  | errored
  deriving Repr, DecidableEq

/-- Result of `wechatService.addPermanentMaterial`: the fresh media
reference and URL, or a throw (upload failure after retries). -/
inductive UploadOutcome where
  | ok (mediaId url : String)
  | errored
  deriving Repr, DecidableEq

/-- Result of resolving one inline body image (lines 347–412): the
store after any cache upsert, the value the `src` attribute is set to
(`none` when it is left unchanged), and how many upload calls were
made. -/
structure ImageResolution where
  db : Db
  srcSubst : Option String
  uploads : Nat
  deriving Repr, DecidableEq

/-- Inline body-image resolution (lines 354–407).  `localPath` is the
cache key: `src` itself for remote URLs, else the path resolved against
the article's directory (lines 360–363).  `oracle` is
`wechatService.checkMediaExists` (a boolean — see `checkMediaExists`
below for its own failure handling).  Cache hit requires an entry whose
stored hash equals the fresh hash of the bytes, a truthy `media_id`,
and the oracle confirming it (line 369–371); otherwise the image is
uploaded, the cache upserted, and the fresh URL used.  Any fetch or
upload failure is rethrown (lines 404–407): fatal to the document. -/
def resolveBodyImage (hashFn : String → String) (oracle : String → Bool)
    (db : Db) (localPath : String) (fetch : FetchOutcome)
    (upload : UploadOutcome) : Except Unit ImageResolution :=
  match fetch with
  | FetchOutcome.errored => Except.error ()
  | FetchOutcome.ok bytes _ _ =>
    let hash := hashFn bytes
    let material := getMaterial db localPath
    let cachedUrl : Option String := material.bind (fun m => m.url)
    let hit : Bool :=
      match material with
      | some m => m.hash == hash && m.media_id ≠ "" && oracle m.media_id
      | none => false
    if hit then
      Except.ok ⟨db, if jsTruthy cachedUrl then cachedUrl else none, 0⟩
    else
      match upload with
      | UploadOutcome.errored => Except.error ()
      | UploadOutcome.ok mediaId url =>
        let db' := saveMaterial db localPath hash mediaId url
        Except.ok ⟨db', if jsTruthy (some url) then some url else none, 1⟩

/-- Result of the cover-handling block (lines 278–314): the store, the
thumbnail media id (`null` when the cover could not be resolved), the
cover URL, and the number of upload calls.  The block never throws: its
`catch` only logs a warning. -/
structure CoverResolution where
  db : Db
  thumb_media_id : Option String
  coverImageUrl : Option String
  uploads : Nat
  deriving Repr, DecidableEq

/-- Cover-asset resolution (lines 278–314).  `cover` is the content of
`<baseName>.png` next to the article, or `none` when `fs.access` /
`fs.readFile` fails.  A cache hit (entry present, hash equal, oracle
confirms — note: no `media_id` truthiness check here, unlike the body
path) reuses the cached media id and URL with no upload; otherwise the
resized cover is uploaded and the cache upserted.  Every failure inside
the block (missing file, resize or upload throw) lands in the `catch`
that merely logs, leaving `thumb_media_id` at `null`. -/
def resolveCover (hashFn : String → String) (oracle : String → Bool)
    (db : Db) (coverImagePath : String) (cover : Option String)
    (upload : UploadOutcome) : CoverResolution :=
  match cover with
  | none => ⟨db, none, none, 0⟩
  | some bytes =>
    let hash := hashFn bytes
    match getMaterial db coverImagePath with
    | some m =>
      if m.hash == hash && oracle m.media_id then
        ⟨db, some m.media_id, m.url, 0⟩
      else
        match upload with
        | UploadOutcome.errored => ⟨db, none, none, 0⟩
        | UploadOutcome.ok mediaId url =>
          ⟨saveMaterial db coverImagePath hash mediaId url, some mediaId, some url, 1⟩
    | none =>
      match upload with
      | UploadOutcome.errored => ⟨db, none, none, 0⟩
      | UploadOutcome.ok mediaId url =>
        ⟨saveMaterial db coverImagePath hash mediaId url, some mediaId, some url, 1⟩

/-- Digest resolution at the end of `convert` (lines 430–434):
`attributes['digest'] || attributes?.cover?.prompt || defaultDigest`,
truncated to `substring(0, 117) + '...'` when longer than 120.  Strings
are modelled as their character sequences (`String.data`), matching the
JavaScript length/substring on the test corpus of BMP text. -/
def resolveDigest (attrDigest coverPrompt defaultDigest : Option String) :
    Option String :=
  let resolved := jsOrStr attrDigest (jsOrStr coverPrompt defaultDigest)
  match resolved with
  | some s =>
    if jsTruthy (some s) && 120 < s.data.length then
      some (String.mk (s.data.take 117) ++ "...")
    else
      some s
  | none => none

/-! ## Remote existence oracle (`wechat.service.ts`) -/

/-- Outcome of the access-token acquisition (`getAccessToken`, called
on the first line of every service method): a token, or a throw after
its internal retries are exhausted. -/
inductive TokenOutcome where
  | ok (token : String)
  | errored
  deriving Repr, DecidableEq

/-- Classification of the `get_material` HTTP exchange inside
`checkMediaExists` (lines 313–339) after the retry wrapper has run its
course: a non-JSON (binary) response, a JSON response without
`errcode`, a JSON `errcode` 40007 (invalid media id), or any other
failure remaining after retries (other `errcode`s, network errors). -/
inductive MediaCheckOutcome where
  | binaryOk
  | jsonOk
  | invalidMediaId
  | otherErrorExhausted
  deriving Repr, DecidableEq

/-- What `checkMediaExists` does from its caller's point of view:
return a boolean, or throw. -/
inductive CheckResult where
  | returns (b : Bool)
  | throws
  deriving Repr, DecidableEq

/-- `WeChatService.checkMediaExists` (lines 306–345).  The access token
is fetched at line 307, *before* the `try` block, so a token failure
propagates to the caller.  Inside the guarded block: errcode 40007
returns `false` immediately (line 331–333); any other error surviving
the retries is caught at line 341 and yields `false`; a binary stream
or clean JSON yields `true`. -/
def checkMediaExists (tok : TokenOutcome) (out : MediaCheckOutcome) : CheckResult :=
  match tok with
  | TokenOutcome.errored => CheckResult.throws
  | TokenOutcome.ok _ =>
    match out with
    | MediaCheckOutcome.binaryOk => CheckResult.returns true
    | MediaCheckOutcome.jsonOk => CheckResult.returns true
    | MediaCheckOutcome.invalidMediaId => CheckResult.returns false
    | MediaCheckOutcome.otherErrorExhausted => CheckResult.returns false

/-! ## Shared concrete examples for closed evaluations -/

/-- The SHA-1 stand-in used in closed evaluations: an injective tag of
the input (the program only ever compares digests for equality). -/
def exHashFn : String → String := fun s => String.append "sha1#" s

/-- Example store: one article whose stored fingerprint matches the raw
content `RAW`, with one draft row. -/
def exDbA : Db :=
  ⟨[⟨1, "a.md", "sha1#RAW"⟩], [⟨1, 1, "media-1", 0⟩], [], [], 2, 2, 1, 1⟩

/-- Example empty store. -/
def exDbEmpty : Db := ⟨[], [], [], [], 1, 1, 1, 0⟩

/-! ## C1: the five-state transition table -/

/-- C1. The `create` command's action is decided exactly by the
transition table recomputed each run: no Document record → CREATE;
Document present, fingerprints equal, latest draft present and
confirmed live → SKIP; fingerprints different and draft live → UPDATE;
and whenever no draft row exists or the remote draft is not confirmed
live (missing or check failed) → CREATE. -/
theorem create_transition_table (hashFn : String → String) (db : Db)
    (file rawContent : String) (remote : GetDraftOutcome) :
    (findArticleByPath db file = none →
      createDecision hashFn db file rawContent remote = SyncAction.CREATE) ∧
    (∀ a d, findArticleByPath db file = some a →
      findLatestDraftByArticleId db a.id = some d →
      a.source_hash = getFileHash hashFn rawContent →
      remote = GetDraftOutcome.found →
      createDecision hashFn db file rawContent remote = SyncAction.SKIP) ∧
    (∀ a d, findArticleByPath db file = some a →
      findLatestDraftByArticleId db a.id = some d →
      a.source_hash ≠ getFileHash hashFn rawContent →
      remote = GetDraftOutcome.found →
      createDecision hashFn db file rawContent remote = SyncAction.UPDATE) ∧
    (∀ a, findArticleByPath db file = some a →
      (findLatestDraftByArticleId db a.id = none ∨ remote ≠ GetDraftOutcome.found) →
      createDecision hashFn db file rawContent remote = SyncAction.CREATE) := by
  refine ⟨fun h => ?_, fun a d ha hd hh hr => ?_, fun a d ha hd hh hr => ?_,
    fun a ha h => ?_⟩
  · simp [createDecision, h, decideCreateAction]
  · simp [createDecision, ha, hd, hr, decideCreateAction, getFileHash, hh]
  · have hb : (a.source_hash == getFileHash hashFn rawContent) = false := by
      simpa using hh
    simp [createDecision, ha, hd, hr, decideCreateAction, hb]
  · rcases h with h | h
    · simp [createDecision, ha, h, decideCreateAction]
    · cases hfd : findLatestDraftByArticleId db a.id with
      | none => simp [createDecision, ha, hfd, decideCreateAction]
      | some d =>
        cases remote with
        | found => exact absurd rfl h
        | missing => simp [createDecision, ha, hfd, decideCreateAction]
        | errored => simp [createDecision, ha, hfd, decideCreateAction]

/-- Closed instantiation of `create_transition_table`: all four rows of
the table exercised on concrete stores. -/
theorem create_transition_table_witness :
    createDecision exHashFn exDbA "a.md" "RAW" GetDraftOutcome.found = SyncAction.SKIP ∧
    createDecision exHashFn exDbA "a.md" "CHANGED" GetDraftOutcome.found = SyncAction.UPDATE ∧
    createDecision exHashFn exDbA "a.md" "RAW" GetDraftOutcome.missing = SyncAction.CREATE ∧
    createDecision exHashFn exDbEmpty "a.md" "RAW" GetDraftOutcome.found = SyncAction.CREATE := by
  refine ⟨?_, ?_, ?_, ?_⟩
  · exact (create_transition_table exHashFn exDbA "a.md" "RAW" GetDraftOutcome.found).2.1
      ⟨1, "a.md", "sha1#RAW"⟩ ⟨1, 1, "media-1", 0⟩ (by decide) (by decide) (by decide) rfl
  · exact (create_transition_table exHashFn exDbA "a.md" "CHANGED" GetDraftOutcome.found).2.2.1
      ⟨1, "a.md", "sha1#RAW"⟩ ⟨1, 1, "media-1", 0⟩ (by decide) (by decide) (by decide) rfl
  · exact (create_transition_table exHashFn exDbA "a.md" "RAW" GetDraftOutcome.missing).2.2.2
      ⟨1, "a.md", "sha1#RAW"⟩ (by decide) (Or.inr (by decide))
  · exact (create_transition_table exHashFn exDbEmpty "a.md" "RAW" GetDraftOutcome.found).1 rfl

/-! ## C4: SKIP mutates nothing -/

/-- C4. When the decided action is SKIP (Document present, stored
fingerprint equal to the fresh one, latest draft present and confirmed
live), the per-document step returns the store unchanged — no row
inserted into any table and no fingerprint write — having issued only
the draft-existence check. -/
theorem skip_no_store_mutation (hashFn : String → String) (db : Db)
    (file : String) (r : DocRun) (a : ArticleRow) (d : DraftRow)
    (ha : findArticleByPath db file = some a)
    (hd : findLatestDraftByArticleId db a.id = some d)
    (hh : a.source_hash = getFileHash hashFn r.rawContent)
    (hr : r.remote = GetDraftOutcome.found) :
    processCreateDoc hashFn db file r =
      Except.ok ⟨SyncAction.SKIP, db, [RemoteCall.getDraftCall d.media_id]⟩ := by
  simp [processCreateDoc, ha, hd, hr, decideCreateAction, getFileHash, hh]

/-- Closed instantiation of `skip_no_store_mutation`: an unchanged
document with a live draft leaves the concrete store untouched, for an
arbitrary pending conversion outcome. -/
theorem skip_no_store_mutation_witness :
    processCreateDoc exHashFn exDbA "a.md"
        ⟨"RAW", GetDraftOutcome.found,
          ConvertOutcome.ok ⟨"<p>x</p>", some "thumb-1", none, none⟩
            [⟨"/img.png", "h", "m", "u"⟩], "media-2"⟩ =
      Except.ok ⟨SyncAction.SKIP, exDbA, [RemoteCall.getDraftCall "media-1"]⟩ :=
  skip_no_store_mutation exHashFn exDbA "a.md" _
    ⟨1, "a.md", "sha1#RAW"⟩ ⟨1, 1, "media-1", 0⟩
    (by decide) (by decide) (by decide) rfl

/-! ## C5: a failing existence check forces re-creation -/

/-- C5. For a document with a recorded latest draft row, when the
remote draft-existence check throws (network failure — caught and
logged at the call site), the decided action is CREATE, never a silent
SKIP. -/
theorem existence_check_error_forces_create (hashFn : String → String)
    (db : Db) (file rawContent : String) (a : ArticleRow) (d : DraftRow)
    (ha : findArticleByPath db file = some a)
    (hd : findLatestDraftByArticleId db a.id = some d) :
    createDecision hashFn db file rawContent GetDraftOutcome.errored = SyncAction.CREATE ∧
    createDecision hashFn db file rawContent GetDraftOutcome.errored ≠ SyncAction.SKIP := by
  constructor
  · simp [createDecision, ha, hd, decideCreateAction]
  · simp [createDecision, ha, hd, decideCreateAction]

/-- Closed instantiation of `existence_check_error_forces_create`: an
errored existence check on the concrete store yields CREATE even though
the stored fingerprint matches the fresh one. -/
theorem existence_check_error_forces_create_witness :
    createDecision exHashFn exDbA "a.md" "RAW" GetDraftOutcome.errored = SyncAction.CREATE ∧
    createDecision exHashFn exDbA "a.md" "RAW" GetDraftOutcome.errored ≠ SyncAction.SKIP :=
  existence_check_error_forces_create exHashFn exDbA "a.md" "RAW"
    ⟨1, "a.md", "sha1#RAW"⟩ ⟨1, 1, "media-1", 0⟩ (by decide) (by decide)

/-! ## C8: UPDATE reuses the existing draft reference -/

/-- The asset-cache upsert touches only the `materials` relation. -/
theorem saveMaterial_frame (db : Db) (lp h mid url : String) :
    (saveMaterial db lp h mid url).articles = db.articles ∧
    (saveMaterial db lp h mid url).drafts = db.drafts ∧
    (saveMaterial db lp h mid url).publications = db.publications := by
  unfold saveMaterial
  split <;> exact ⟨rfl, rfl, rfl⟩

/-- Replaying a conversion's cache upserts touches only `materials`. -/
theorem applySaves_frame (saves : List SaveCall) (db : Db) :
    (applySaves db saves).articles = db.articles ∧
    (applySaves db saves).drafts = db.drafts ∧
    (applySaves db saves).publications = db.publications := by
  induction saves generalizing db with
  | nil => exact ⟨rfl, rfl, rfl⟩
  | cons s rest ih =>
    have hstep := saveMaterial_frame db s.local_path s.hash s.media_id s.url
    have hrest := ih (saveMaterial db s.local_path s.hash s.media_id s.url)
    simp only [applySaves, List.foldl_cons] at *
    exact ⟨hrest.1.trans hstep.1, hrest.2.1.trans hstep.2.1,
      hrest.2.2.trans hstep.2.2⟩

/-- The fingerprint upsert touches only the `articles` relation. -/
theorem updateArticleHash_frame (db : Db) (id : Nat) (h : String) :
    (updateArticleHash db id h).drafts = db.drafts ∧
    (updateArticleHash db id h).publications = db.publications :=
  ⟨rfl, rfl⟩

/-- C8. When the decided action is UPDATE, the remote update call
targets the existing latest draft reference token, and the local side
effect of the action is exactly the fingerprint upsert performed in the
transaction: the `drafts` relation ends unchanged (no insert, no
mutation of existing rows — append-only history is trivially preserved
when nothing is appended), and so does `publications`. -/
theorem update_reuses_existing_draft (hashFn : String → String) (db : Db)
    (file : String) (r : DocRun) (a : ArticleRow) (d : DraftRow)
    (res : ConvertResult) (saves : List SaveCall) (t : String)
    (ha : findArticleByPath db file = some a)
    (hd : findLatestDraftByArticleId db a.id = some d)
    (hh : a.source_hash ≠ getFileHash hashFn r.rawContent)
    (hr : r.remote = GetDraftOutcome.found)
    (hc : r.conv = ConvertOutcome.ok res saves)
    (ht : res.thumb_media_id = some t) (ht' : t ≠ "") :
    processCreateDoc hashFn db file r =
      Except.ok ⟨SyncAction.UPDATE,
        updateArticleHash (applySaves db saves) a.id (getFileHash hashFn r.rawContent),
        [RemoteCall.getDraftCall d.media_id, RemoteCall.updateDraftCall d.media_id]⟩ ∧
    (updateArticleHash (applySaves db saves) a.id
        (getFileHash hashFn r.rawContent)).drafts = db.drafts ∧
    (updateArticleHash (applySaves db saves) a.id
        (getFileHash hashFn r.rawContent)).publications = db.publications := by
  have hb : (a.source_hash == getFileHash hashFn r.rawContent) = false := by
    simpa using hh
  refine ⟨?_, ?_, ?_⟩
  · simp [processCreateDoc, ha, hd, hr, hc, ht, ht', decideCreateAction, hb, jsTruthy]
  · exact ((updateArticleHash_frame _ _ _).1).trans (applySaves_frame saves db).2.1
  · exact ((updateArticleHash_frame _ _ _).2).trans (applySaves_frame saves db).2.2

/-- Closed instantiation of `update_reuses_existing_draft`: a changed
document with a live draft is updated in place; the draft relation of
the concrete store is unchanged. -/
theorem update_reuses_existing_draft_witness :
    processCreateDoc exHashFn exDbA "a.md"
        ⟨"CHANGED", GetDraftOutcome.found,
          ConvertOutcome.ok ⟨"<p>y</p>", some "thumb-1", none, none⟩ [], "media-9"⟩ =
      Except.ok ⟨SyncAction.UPDATE,
        updateArticleHash (applySaves exDbA []) 1 (getFileHash exHashFn "CHANGED"),
        [RemoteCall.getDraftCall "media-1", RemoteCall.updateDraftCall "media-1"]⟩ ∧
    (updateArticleHash (applySaves exDbA []) 1
        (getFileHash exHashFn "CHANGED")).drafts = exDbA.drafts ∧
    (updateArticleHash (applySaves exDbA []) 1
        (getFileHash exHashFn "CHANGED")).publications = exDbA.publications :=
  update_reuses_existing_draft exHashFn exDbA "a.md" _
    ⟨1, "a.md", "sha1#RAW"⟩ ⟨1, 1, "media-1", 0⟩
    ⟨"<p>y</p>", some "thumb-1", none, none⟩ [] "thumb-1"
    (by decide) (by decide) (by decide) rfl rfl rfl (by decide)

/-! ## C6: asset cache hit performs no upload -/

/-- C6. For an embedded body asset with a cache entry whose stored hash
equals the fresh hash of the asset's bytes, whose media reference is
present, and which the existence oracle confirms live, resolution
performs zero upload calls, leaves the store unchanged, and substitutes
the cached URL — whatever an upload would have returned. -/
theorem asset_cache_hit_no_upload (hashFn : String → String)
    (oracle : String → Bool) (db : Db) (localPath bytes ct fn : String)
    (upload : UploadOutcome) (m : MaterialRow) (u : String)
    (hm : getMaterial db localPath = some m)
    (hh : m.hash = hashFn bytes)
    (hmid : m.media_id ≠ "")
    (ho : oracle m.media_id = true)
    (hu : m.url = some u) (hu' : u ≠ "") :
    resolveBodyImage hashFn oracle db localPath
        (FetchOutcome.ok bytes ct fn) upload =
      Except.ok ⟨db, some u, 0⟩ := by
  simp [resolveBodyImage, hm, hh, hmid, ho, hu, hu', jsTruthy]

/-- Closed instantiation of `asset_cache_hit_no_upload` on a concrete
store with a cached, confirmed-live image. -/
theorem asset_cache_hit_no_upload_witness :
    resolveBodyImage exHashFn (fun _ => true)
        ⟨[], [], [], [⟨"/p/img.png", "sha1#IMG", "mat-1", some "http://cdn/img"⟩],
          1, 1, 1, 0⟩
        "/p/img.png" (FetchOutcome.ok "IMG" "image/png" "img.png")
        UploadOutcome.errored =
      Except.ok ⟨⟨[], [], [], [⟨"/p/img.png", "sha1#IMG", "mat-1", some "http://cdn/img"⟩],
          1, 1, 1, 0⟩, some "http://cdn/img", 0⟩ :=
  asset_cache_hit_no_upload exHashFn (fun _ => true) _ "/p/img.png" "IMG"
    "image/png" "img.png" UploadOutcome.errored
    ⟨"/p/img.png", "sha1#IMG", "mat-1", some "http://cdn/img"⟩ "http://cdn/img"
    (by decide) (by decide) (by decide) rfl rfl (by decide)

/-! ## C9: digest truncation to 120 characters -/

/-- Appending the three-dot ellipsis to a string built from a character
list concatenates the underlying lists. -/
theorem mk_append_ellipsis_data (l : List Char) :
    (String.mk l ++ "...").data = l ++ ['.', '.', '.'] := by
  show (String.mk (l ++ ['.', '.', '.'])).data = _
  rfl

/-- C9. The digest resolved by `convert` (front matter `digest`, else
cover prompt, else the default) is at most 120 characters: a resolved
digest longer than 120 characters is replaced by its first 117
characters followed by `...` — exactly 120 characters — and a digest of
at most 120 characters is returned unchanged. -/
theorem digest_truncated_to_120 (attrDigest coverPrompt defaultDigest : Option String) :
    (∀ s, resolveDigest attrDigest coverPrompt defaultDigest = some s →
      s.data.length ≤ 120) ∧
    (∀ s, jsOrStr attrDigest (jsOrStr coverPrompt defaultDigest) = some s →
      120 < s.data.length →
      resolveDigest attrDigest coverPrompt defaultDigest =
        some (String.mk (s.data.take 117) ++ "...") ∧
      (String.mk (s.data.take 117) ++ "...").data.length = 120) ∧
    (∀ s, jsOrStr attrDigest (jsOrStr coverPrompt defaultDigest) = some s →
      s.data.length ≤ 120 →
      resolveDigest attrDigest coverPrompt defaultDigest = some s) := by
  have hlen : ∀ s : String, 120 < s.data.length →
      (String.mk (s.data.take 117) ++ "...").data.length = 120 := by
    intro s hs
    rw [mk_append_ellipsis_data, List.length_append, List.length_take]
    simp only [List.length_cons, List.length_nil]
    omega
  have hne : ∀ s : String, 120 < s.data.length → s ≠ "" := by
    intro s hs hcon
    subst hcon
    simp only [List.length_nil] at hs
    omega
  have hcondT : ∀ s : String, 120 < s.data.length →
      (jsTruthy (some s) && decide (120 < s.data.length)) = true := by
    intro s hs
    have h1 : jsTruthy (some s) = true := by
      simp only [jsTruthy]
      exact decide_eq_true (hne s hs)
    rw [h1, decide_eq_true hs]
    rfl
  have hcondF : ∀ s : String, ¬ 120 < s.data.length →
      ¬ ((jsTruthy (some s) && decide (120 < s.data.length)) = true) := by
    intro s hs hcon
    exact absurd (of_decide_eq_true ((Bool.and_eq_true _ _).mp hcon).2) hs
  refine ⟨?_, ?_, ?_⟩
  · intro s hs
    simp only [resolveDigest] at hs
    rcases hr : jsOrStr attrDigest (jsOrStr coverPrompt defaultDigest) with _ | t
    · rw [hr] at hs
      exact absurd hs (by simp)
    · rw [hr] at hs
      dsimp only at hs
      by_cases hlong : 120 < t.data.length
      · rw [if_pos (hcondT t hlong)] at hs
        injection hs with hs'
        rw [← hs']
        exact le_of_eq (hlen t hlong)
      · rw [if_neg (hcondF t hlong)] at hs
        injection hs with hs'
        rw [← hs']
        omega
  · intro s hr hlong
    refine ⟨?_, hlen s hlong⟩
    simp only [resolveDigest, hr]
    rw [if_pos (hcondT s hlong)]
  · intro s hr hshort
    have hlong : ¬ 120 < s.data.length := by omega
    simp only [resolveDigest, hr]
    rw [if_neg (hcondF s hlong)]

/-- Closed instantiation of `digest_truncated_to_120`: a 121-character
digest is truncated to exactly 120 characters; a short digest passes
through unchanged. -/
theorem digest_truncated_to_120_witness :
    resolveDigest (some (String.mk (List.replicate 121 'a'))) none none =
      some (String.mk ((List.replicate 121 'a').take 117) ++ "...") ∧
    (String.mk (((String.mk (List.replicate 121 'a')).data).take 117) ++
      "...").data.length = 120 ∧
    resolveDigest none (some "short") none = some "short" := by
  refine ⟨?_, ?_, ?_⟩
  · exact ((digest_truncated_to_120 (some (String.mk (List.replicate 121 'a')))
      none none).2.1 (String.mk (List.replicate 121 'a')) (by decide) (by decide)).1
  · exact ((digest_truncated_to_120 (some (String.mk (List.replicate 121 'a')))
      none none).2.1 (String.mk (List.replicate 121 'a')) (by decide) (by decide)).2
  · exact (digest_truncated_to_120 none (some "short") none).2.2 "short"
      (by decide) (by decide)

/-! ## C2: the fingerprint is the raw-file hash, not the resolved one -/

/-- C2 scenario: raw markdown of a document that embeds `img.png`. -/
def exRawPost : String := "![img](img.png)"

/-- C2 scenario: the article row, whose stored fingerprint equals the
raw-file hash of `exRawPost`. -/
def exArticleP : ArticleRow := ⟨1, "post.md", String.append "sha1#" exRawPost⟩

/-- C2 scenario, before: the embedded asset's cache entry points at its
originally uploaded URL. -/
def exDbOldUrl : Db :=
  ⟨[exArticleP], [⟨1, 1, "draft-1", 0⟩], [],
    [⟨"/posts/img.png", "sha1#IMGBYTES", "mat-old", some "http://cdn/old.png"⟩],
    2, 2, 1, 1⟩

/-- C2 scenario, after: the same asset was re-uploaded out of band, so
its cache entry carries a new media reference and URL; the raw markdown
is unchanged. -/
def exDbNewUrl : Db :=
  ⟨[exArticleP], [⟨1, 1, "draft-1", 0⟩], [],
    [⟨"/posts/img.png", "sha1#IMGBYTES", "mat-new", some "http://cdn/new.png"⟩],
    2, 2, 1, 1⟩

/-- C2 (code evaluation at the failing input).  The `create` command's
change detection hashes the raw source file (`getFileHash`), before any
asset resolution: with the raw markdown unchanged, the decided action
is SKIP both before and after the embedded asset's uploaded URL changed
— even though the resolved representation demonstrably differs (the
body-image resolution substitutes `http://cdn/old.png`
vs. `http://cdn/new.png`).  The claimed behavior (fingerprint over the
resolved representation, asset-URL change ⇒ UPDATE) does not hold for
this code. -/
theorem raw_hash_decision_ignores_asset_url_change :
    createDecision exHashFn exDbOldUrl "post.md" exRawPost GetDraftOutcome.found =
      SyncAction.SKIP ∧
    createDecision exHashFn exDbNewUrl "post.md" exRawPost GetDraftOutcome.found =
      SyncAction.SKIP ∧
    resolveBodyImage exHashFn (fun _ => true) exDbOldUrl "/posts/img.png"
        (FetchOutcome.ok "IMGBYTES" "image/png" "img.png") UploadOutcome.errored =
      Except.ok ⟨exDbOldUrl, some "http://cdn/old.png", 0⟩ ∧
    resolveBodyImage exHashFn (fun _ => true) exDbNewUrl "/posts/img.png"
        (FetchOutcome.ok "IMGBYTES" "image/png" "img.png") UploadOutcome.errored =
      Except.ok ⟨exDbNewUrl, some "http://cdn/new.png", 0⟩ :=
  ⟨rfl, rfl, rfl, rfl⟩

/-! ## C3: a per-document failure aborts the rest of the batch -/

/-- C3 scenario: a batch where converting `a.md` throws (a fatal inline
body-asset failure) while `b.md` converts fine. -/
def exRunsBatch : String → DocRun := fun f =>
  if f == "a.md" then
    ⟨"RAWA", GetDraftOutcome.missing, ConvertOutcome.errored [], "media-a"⟩
  else
    ⟨"RAWB", GetDraftOutcome.missing,
      ConvertOutcome.ok ⟨"<p>b</p>", some "thumb-b", none, none⟩ [], "media-b"⟩

/-- C3 (code evaluation at the failing input).  The `create` command's
`catch` sits outside the `for` loop, so the first per-document failure
ends the batch: with `a.md` failing first, `b.md` is never processed
(the processed list is empty), although `b.md` on its own processes
fine (batch in the reverse order).  The claimed behavior (failure
caught at the per-document boundary, siblings still process) does not
hold for this code. -/
theorem batch_aborts_on_first_document_failure :
    (runCreateBatch exHashFn exRunsBatch exDbEmpty ["a.md", "b.md"]).2 = [] ∧
    (runCreateBatch exHashFn exRunsBatch exDbEmpty ["b.md", "a.md"]).2 =
      [("b.md", SyncAction.CREATE)] := by
  decide

/-! ## C7: cover failure is swallowed, but the document is then skipped -/

/-- C7 (counterexample to the claim as stated).  A new document whose
cover fails to resolve: the cover block swallows the failure (no
thumbnail, store untouched), but the per-document step then bails out
before any draft call — the result carries no remote create/update call
and leaves the store unchanged, so no draft is created "without a
cover". -/
theorem cover_failure_no_draft_created :
    resolveCover exHashFn (fun _ => false) exDbEmpty "/p/post.png" none
        UploadOutcome.errored = ⟨exDbEmpty, none, none, 0⟩ ∧
    processCreateDoc exHashFn exDbEmpty "post.md"
        ⟨"RAWP", GetDraftOutcome.missing,
          ConvertOutcome.ok ⟨"<p>z</p>", none, none, none⟩ [], "media-z"⟩ =
      Except.ok ⟨SyncAction.CREATE, exDbEmpty, []⟩ :=
  ⟨rfl, rfl⟩

/-- C7 (amended).  Cover-asset failures are swallowed inside the
conversion: an unreadable cover yields no thumbnail, no upload and no
store change, and the conversion does not throw; the sync then skips
draft creation/update for that document entirely (no remote
create/update call; the store keeps only the conversion's own
asset-cache writes).  An inline body-asset failure, by contrast, aborts
the conversion with an error. -/
theorem cover_swallowed_inline_fatal (hashFn : String → String)
    (oracle : String → Bool) (db : Db) (coverPath file : String)
    (upload : UploadOutcome) (r : DocRun) (res : ConvertResult)
    (saves : List SaveCall)
    (hc : r.conv = ConvertOutcome.ok res saves)
    (ht : res.thumb_media_id = none)
    (hns : decideCreateAction (getFileHash hashFn r.rawContent)
        (findArticleByPath db file)
        ((findArticleByPath db file).bind fun a => findLatestDraftByArticleId db a.id)
        r.remote ≠ SyncAction.SKIP) :
    resolveCover hashFn oracle db coverPath none upload = ⟨db, none, none, 0⟩ ∧
    processCreateDoc hashFn db file r =
      Except.ok ⟨decideCreateAction (getFileHash hashFn r.rawContent)
          (findArticleByPath db file)
          ((findArticleByPath db file).bind fun a => findLatestDraftByArticleId db a.id)
          r.remote,
        applySaves db saves,
        match (findArticleByPath db file).bind
            (fun a => findLatestDraftByArticleId db a.id) with
        | some d => [RemoteCall.getDraftCall d.media_id]
        | none => []⟩ ∧
    resolveBodyImage hashFn oracle db coverPath FetchOutcome.errored upload =
      Except.error () := by
  have hb : (decideCreateAction (getFileHash hashFn r.rawContent)
      (findArticleByPath db file)
      ((findArticleByPath db file).bind fun a => findLatestDraftByArticleId db a.id)
      r.remote == SyncAction.SKIP) = false := by
    simpa using hns
  refine ⟨rfl, ?_, rfl⟩
  simp [processCreateDoc, hb, hc, ht, jsTruthy]

/-- Closed instantiation of `cover_swallowed_inline_fatal` on the empty
store with a new document. -/
theorem cover_swallowed_inline_fatal_witness :
    resolveCover exHashFn (fun _ => true) exDbEmpty "/p/q.png" none
        UploadOutcome.errored = ⟨exDbEmpty, none, none, 0⟩ ∧
    processCreateDoc exHashFn exDbEmpty "q.md"
        ⟨"RAWQ", GetDraftOutcome.missing,
          ConvertOutcome.ok ⟨"<p>q</p>", none, none, none⟩ [], "media-q"⟩ =
      Except.ok ⟨decideCreateAction (getFileHash exHashFn "RAWQ")
          (findArticleByPath exDbEmpty "q.md")
          ((findArticleByPath exDbEmpty "q.md").bind
            fun a => findLatestDraftByArticleId exDbEmpty a.id)
          GetDraftOutcome.missing,
        applySaves exDbEmpty [],
        match (findArticleByPath exDbEmpty "q.md").bind
            (fun a => findLatestDraftByArticleId exDbEmpty a.id) with
        | some d => [RemoteCall.getDraftCall d.media_id]
        | none => []⟩ ∧
    resolveBodyImage exHashFn (fun _ => true) exDbEmpty "/p/q.png"
        FetchOutcome.errored UploadOutcome.errored = Except.error () :=
  cover_swallowed_inline_fatal exHashFn (fun _ => true) exDbEmpty "/p/q.png"
    "q.md" UploadOutcome.errored _ ⟨"<p>q</p>", none, none, none⟩ []
    rfl rfl (by decide)

/-! ## C10: the media-existence check and the access token -/

/-- C10 (counterexample to the claim as stated).  When the access-token
acquisition fails, `checkMediaExists` propagates the exception instead
of returning a boolean: the token is fetched before the guarded
block. -/
theorem media_check_token_failure_throws :
    checkMediaExists TokenOutcome.errored MediaCheckOutcome.invalidMediaId =
      CheckResult.throws ∧
    ∀ b, checkMediaExists TokenOutcome.errored MediaCheckOutcome.invalidMediaId ≠
      CheckResult.returns b := by
  refine ⟨rfl, ?_⟩
  intro b h
  cases h

/-- C10 (amended).  Once the access token is obtained,
`checkMediaExists` always returns a boolean: errcode 40007 yields
`false` immediately, any other failure remaining after retries yields
`false`, and a binary or clean-JSON response yields `true`; only a
failure of the access-token acquisition itself — performed before the
guarded block — propagates as an exception. -/
theorem media_check_guarded_never_throws (t : String) (out : MediaCheckOutcome) :
    (∃ b, checkMediaExists (TokenOutcome.ok t) out = CheckResult.returns b) ∧
    checkMediaExists (TokenOutcome.ok t) MediaCheckOutcome.invalidMediaId =
      CheckResult.returns false ∧
    checkMediaExists (TokenOutcome.ok t) MediaCheckOutcome.otherErrorExhausted =
      CheckResult.returns false ∧
    checkMediaExists (TokenOutcome.ok t) MediaCheckOutcome.binaryOk =
      CheckResult.returns true ∧
    checkMediaExists (TokenOutcome.ok t) MediaCheckOutcome.jsonOk =
      CheckResult.returns true ∧
    checkMediaExists TokenOutcome.errored out = CheckResult.throws := by
  refine ⟨?_, rfl, rfl, rfl, rfl, rfl⟩
  cases out with
  | binaryOk => exact ⟨true, rfl⟩
  | jsonOk => exact ⟨true, rfl⟩
  | invalidMediaId => exact ⟨false, rfl⟩
  | otherErrorExhausted => exact ⟨false, rfl⟩

end PostSync
